import Mathlib

/-! Verification development.

# Verification of `matrix_controller.py`

A shallow embedding of the HiTechnic matrix-controller I2C driver.
Python integers are embedded as `ℤ`; the bitwise operators `^`, `&`, `|`
of Python (infinite two's complement) are `pyXor`, `pyAnd`, `pyOr`, proved
equal to Mathlib's `Int.xor`, `Int.land`, `Int.lor`.
Bus I/O is modelled by threading an explicit register file together with a
trace of the bus operations performed, in order.
-/

set_option maxRecDepth 10000
set_option synthInstance.maxSize 512

/-- Python's `x & y` on arbitrary-precision two's-complement integers.
A negative int `-(m+1)` has the bit pattern `NOT m`; mixed-sign cases use
`a AND (NOT b) = a XOR (a AND b)`.  Agreement with Mathlib's `Int.land` is
proved in `pyAnd_eq_land`. -/
def pyAnd : ℤ → ℤ → ℤ
  | Int.ofNat m, Int.ofNat n => Int.ofNat (m &&& n)
  | Int.ofNat m, Int.negSucc n => Int.ofNat (m ^^^ (m &&& n))
  | Int.negSucc m, Int.ofNat n => Int.ofNat (n ^^^ (n &&& m))
  | Int.negSucc m, Int.negSucc n => Int.negSucc (m ||| n)

/-- Python's `x | y` on arbitrary-precision two's-complement integers.
Agreement with Mathlib's `Int.lor` is proved in `pyOr_eq_lor`. -/
def pyOr : ℤ → ℤ → ℤ
  | Int.ofNat m, Int.ofNat n => Int.ofNat (m ||| n)
  | Int.ofNat m, Int.negSucc n => Int.negSucc (n ^^^ (n &&& m))
  | Int.negSucc m, Int.ofNat n => Int.negSucc (m ^^^ (m &&& n))
  | Int.negSucc m, Int.negSucc n => Int.negSucc (m &&& n)

/-- Python's `x ^ y` on arbitrary-precision two's-complement integers.
Agreement with Mathlib's `Int.xor` is proved in `pyXor_eq_xor`. -/
def pyXor : ℤ → ℤ → ℤ
  | Int.ofNat m, Int.ofNat n => Int.ofNat (m ^^^ n)
  | Int.ofNat m, Int.negSucc n => Int.negSucc (m ^^^ n)
  | Int.negSucc m, Int.ofNat n => Int.negSucc (m ^^^ n)
  | Int.negSucc m, Int.negSucc n => Int.ofNat (m ^^^ n)

/-- Source function `get_binary_from_int8(num)`: `if num >= 0: return num`,
else `num = num ^ 0xFF; num += 1; return num & 0xFF` on Python ints. -/
def get_binary_from_int8 (num : ℤ) : ℤ :=
  if num ≥ 0 then num
  else
    let num := pyXor num 0xFF
    let num := num + 1
    pyAnd num 0xFF

/-- Source function `get_int8_from_binary(num)`: `if not num & 0x80: return num`,
else `num -= 1; num ^ 0xFF; return -num`.  The statement `num ^ 0xFF` in the
source discards its result (it is not `num ^= 0xFF`), so it has no effect;
the embedding mirrors this with an unused binding. -/
def get_int8_from_binary (num : ℤ) : ℤ :=
  if pyAnd num 0x80 = 0 then num
  else
    let num := num - 1
    let _discarded := pyXor num 0xFF
    let result := -num
    result

/-- A Python `smbus.SMBus` object: the bus number it was opened on, plus an
allocation identity distinguishing distinct Python objects. -/
structure SMBus where
  busNum : ℕ
  allocId : ℕ
deriving DecidableEq

/-- Embedding of `smbus.SMBus(bus)`: opening a handle to I2C bus number `bus` allocates a
fresh Python object; allocation is modelled by an explicit counter, the new
object's `allocId`, which the call increments. -/
def SMBus.new (bus : ℕ) (ctr : ℕ) : SMBus × ℕ :=
  (⟨bus, ctr⟩, ctr + 1)

/-- The `Controller` object: fields `addr` and `bus` as in the source. -/
structure Controller where
  addr : ℕ
  bus : SMBus
deriving DecidableEq

/-- Constructor `Controller.__init__(self, bus, addr)`: `self.addr = addr;
self.bus = smbus.SMBus(bus)` — note it constructs a new `SMBus` from the
number `bus`; the allocation counter is threaded through. -/
def Controller.init (bus : ℕ) (addr : ℕ) (ctr : ℕ) : Controller × ℕ :=
  let p := SMBus.new bus ctr
  ({ addr := addr, bus := p.1 }, p.2)

/-- The device's register file: one Python int per register address. -/
structure BusState where
  regs : ℕ → ℤ

/-- One bus transaction, as recorded in an I/O trace. -/
inductive BusOp where
  | readByte (addr reg : ℕ)
  | writeByte (addr reg : ℕ) (val : ℤ)
  | readBlock (addr reg len : ℕ)
deriving DecidableEq

/-- Functional update of one register. -/
def busUpdate (s : BusState) (reg : ℕ) (v : ℤ) : BusState :=
  { regs := fun r => if r = reg then v else s.regs r }

/-- Bus primitive `read_byte_data(addr, reg)`: returns the register's value and records
the transaction. -/
def read_byte_data (addr reg : ℕ) (st : BusState × List BusOp) :
    ℤ × (BusState × List BusOp) :=
  (st.1.regs reg, (st.1, st.2 ++ [BusOp.readByte addr reg]))

/-- Bus primitive `write_byte_data(addr, reg, v)`: updates the register and records the
transaction. -/
def write_byte_data (addr reg : ℕ) (v : ℤ) (st : BusState × List BusOp) :
    BusState × List BusOp :=
  (busUpdate st.1 reg v, st.2 ++ [BusOp.writeByte addr reg v])

/-- Bus primitive `read_i2c_block_data(addr, reg, len)`: returns `len` consecutive
registers starting at `reg` and records the transaction. -/
def read_i2c_block_data (addr reg len : ℕ) (st : BusState × List BusOp) :
    List ℤ × (BusState × List BusOp) :=
  ((List.range len).map (fun i => st.1.regs (reg + i)),
   (st.1, st.2 ++ [BusOp.readBlock addr reg len]))

namespace Controller

/-- Class attribute `servo_registers`. -/
def servo_registers : List ℕ := [0x46, 0x48, 0x50, 0x52]

/-- Class attribute `motor_registers`. -/
def motor_registers : List ℕ := [0x4E, 0x58, 0x62, 0x6C]

/-- Method `get_info(self)`: three 8-byte block reads at 0x00, 0x08, 0x10, each
joined into a string via `chr`. -/
def get_info (c : Controller) (st : BusState × List BusOp) :
    Except String (String × String × String) × (BusState × List BusOp) :=
  let v := read_i2c_block_data c.addr 0x00 8 st
  let version := String.mk (v.1.map (fun b => Char.ofNat b.toNat))
  let m := read_i2c_block_data c.addr 0x08 8 v.2
  let manufacturer := String.mk (m.1.map (fun b => Char.ofNat b.toNat))
  let t := read_i2c_block_data c.addr 0x10 8 m.2
  let controller_type := String.mk (t.1.map (fun b => Char.ofNat b.toNat))
  (Except.ok (version, manufacturer, controller_type), t.2)

/-- Method `get_status(self)`: status byte at 0x41 (bit 0x02 batt_low, bit 0x01
fault) and battery level at 0x43. -/
def get_status (c : Controller) (st : BusState × List BusOp) :
    Except String (Bool × Bool × ℤ) × (BusState × List BusOp) :=
  let r := read_byte_data c.addr 0x41 st
  let status := r.1
  let batt_low := decide (pyAnd status 0x02 ≠ 0)
  let fault := decide (pyAnd status 0x01 ≠ 0)
  let b := read_byte_data c.addr 0x43 r.2
  (Except.ok (batt_low, fault, b.1), b.2)

/-- Method `set_timeout(self, seconds)`: validates `-1 <= seconds <= 255`, writes
`seconds` to 0x42 when `seconds > -1`, then re-reads and returns 0x42. -/
def set_timeout (c : Controller) (seconds : ℤ) (st : BusState × List BusOp) :
    Except String ℤ × (BusState × List BusOp) :=
  if ¬(-1 ≤ seconds ∧ seconds ≤ 255) then
    (Except.error "The timeout should be in the range of [-1, 255].", st)
  else
    let st := if seconds > -1 then write_byte_data c.addr 0x42 seconds st else st
    let r := read_byte_data c.addr 0x42 st
    (Except.ok r.1, r.2)

/-- Method `start_motors(self)`: writes 1 to register 0x44. -/
def start_motors (c : Controller) (st : BusState × List BusOp) :
    Except String Unit × (BusState × List BusOp) :=
  (Except.ok (), write_byte_data c.addr 0x44 1 st)

/-- One iteration of the `set_servos` loop body at `index`, acting on the
accumulated bitmask `val` with servo command `x = servos[index]`. -/
def servoStep (index : ℕ) (x : ℤ) (val : ℤ) : Except String ℤ :=
  if ¬(-1 ≤ x ∧ x ≤ 1) then
    Except.error ("Element " ++ toString index ++ " has a inappropriate value.")
  else if x = -1 then Except.ok val
  else if x = 0 then Except.ok (pyAnd val (((1 <<< index) ^^^ 0xFF : ℕ) : ℤ))
  else Except.ok (pyOr val ((1 <<< index : ℕ) : ℤ))

/-- The `for index in range(4)` loop of `set_servos`. -/
def servosLoop (servos : List ℤ) (val : ℤ) : Except String ℤ :=
  (List.range 4).foldl
    (fun acc index => acc.bind (servoStep index (servos.getD index 0))) (Except.ok val)

/-- Method `set_servos(self, servos)`: reads the enable bitmask at 0x45 first, then
validates the list length, runs the per-servo loop (which validates each
element), writes the new bitmask back, re-reads it and returns the four
enable bits. -/
def set_servos (c : Controller) (servos : List ℤ) (st : BusState × List BusOp) :
    Except String (List Bool) × (BusState × List BusOp) :=
  let r := read_byte_data c.addr 0x45 st
  let st := r.2
  if servos.length ≠ 4 then
    (Except.error "The length of the list should be exactly 4.", st)
  else
    match servosLoop servos r.1 with
    | Except.error e => (Except.error e, st)
    | Except.ok val =>
      let st := write_byte_data c.addr 0x45 val st
      let r2 := read_byte_data c.addr 0x45 st
      (Except.ok ((List.range 4).map
        (fun index => decide (pyAnd r2.1 ((1 <<< index : ℕ) : ℤ) > 0))), r2.2)

/-- Method `set_servo_speed(self, servo, speed)`: validates `1 <= servo <= 4` and
`-1 <= speed <= 255`, writes `speed` to `servo_registers[servo-1]` when
`speed > -1`, then re-reads and returns that register. -/
def set_servo_speed (c : Controller) (servo : ℤ) (speed : ℤ)
    (st : BusState × List BusOp) : Except String ℤ × (BusState × List BusOp) :=
  if ¬(1 ≤ servo ∧ servo ≤ 4) ∨ ¬(-1 ≤ speed ∧ speed ≤ 255) then
    (Except.error "Inappropriate value for servo speed.", st)
  else
    let reg := servo_registers.getD (servo - 1).toNat 0
    let st := if speed > -1 then write_byte_data c.addr reg speed st else st
    let r := read_byte_data c.addr reg st
    (Except.ok r.1, r.2)

/-- Method `set_servo_target(self, servo, target)`: validates `1 <= servo <= 4` and
`-1 <= target <= 250`, writes `target` to `servo_registers[servo-1]+1` when
`target > -1`, then re-reads and returns that register. -/
def set_servo_target (c : Controller) (servo : ℤ) (target : ℤ)
    (st : BusState × List BusOp) : Except String ℤ × (BusState × List BusOp) :=
  if ¬(1 ≤ servo ∧ servo ≤ 4) ∨ ¬(-1 ≤ target ∧ target ≤ 250) then
    (Except.error "Inappropriate value for servo target.", st)
  else
    let reg := servo_registers.getD (servo - 1).toNat 0 + 1
    let st := if target > -1 then write_byte_data c.addr reg target st else st
    let r := read_byte_data c.addr reg st
    (Except.ok r.1, r.2)

/-- Method `get_motor_status(self, motor)`: validates the channel, then reads the
4-byte position block at `motor_registers[motor-1]`, the 4-byte target block
at `+4`, the speed byte at `+5` through `get_int8_from_binary`, and the
status byte at `+9`, decoding busy (0x80), invert (0x10), pending (0x08) and
mode (low 2 bits). -/
def get_motor_status (c : Controller) (motor : ℤ) (st : BusState × List BusOp) :
    Except String (List ℤ × List ℤ × ℤ × Bool × Bool × Bool × ℤ) ×
      (BusState × List BusOp) :=
  if ¬(1 ≤ motor ∧ motor ≤ 4) then
    (Except.error "Inappropriate value for motor channel", st)
  else
    let base := motor_registers.getD (motor - 1).toNat 0
    let p := read_i2c_block_data c.addr base 4 st
    let t := read_i2c_block_data c.addr (base + 4) 4 p.2
    let sp := read_byte_data c.addr (base + 5) t.2
    let speed := get_int8_from_binary sp.1
    let sb := read_byte_data c.addr (base + 9) sp.2
    let status := sb.1
    let busy := decide (pyAnd status 0x80 ≠ 0)
    let invert := decide (pyAnd status 0x10 ≠ 0)
    let pending := decide (pyAnd status 0x08 ≠ 0)
    let mode := pyAnd status 0x03
    (Except.ok (p.1, t.1, speed, busy, invert, pending, mode), sb.2)

/-- Method `set_motor_mode(self, motor, invert, pending, reset, mode)`: validates
`1 <= motor <= 4` and `0 <= mode <= 3`, then writes
`(invert << 4) + (pending << 3) + (reset << 2) + mode` to
`motor_registers[motor-1] + 9`. -/
def set_motor_mode (c : Controller) (motor : ℤ) (invert pending reset : Bool)
    (mode : ℤ) (st : BusState × List BusOp) :
    Except String Unit × (BusState × List BusOp) :=
  if ¬(1 ≤ motor ∧ motor ≤ 4) ∨ ¬(0 ≤ mode ∧ mode ≤ 3) then
    (Except.error "Got inappropriate value while setting mode for motor.", st)
  else
    let reg := motor_registers.getD (motor - 1).toNat 0 + 9
    let v : ℤ :=
      (((if invert then 1 else 0) <<< 4 : ℕ) : ℤ) +
      (((if pending then 1 else 0) <<< 3 : ℕ) : ℤ) +
      (((if reset then 1 else 0) <<< 2 : ℕ) : ℤ) + mode
    (Except.ok (), write_byte_data c.addr reg v st)

/-- Method `set_motor_speed(self, motor, speed)`: validates `1 <= motor <= 4` and
`-100 <= speed <= 100`, then writes `get_binary_from_int8(speed)` to
`motor_registers[motor-1] + 8`. -/
def set_motor_speed (c : Controller) (motor : ℤ) (speed : ℤ)
    (st : BusState × List BusOp) : Except String Unit × (BusState × List BusOp) :=
  if ¬(1 ≤ motor ∧ motor ≤ 4) ∨ ¬(-100 ≤ speed ∧ speed ≤ 100) then
    (Except.error "Got inappropriate value while setting motor speed.", st)
  else
    let reg := motor_registers.getD (motor - 1).toNat 0 + 8
    (Except.ok (), write_byte_data c.addr reg (get_binary_from_int8 speed) st)

end Controller

/-- Decidable equality for `Except`, needed to evaluate results by `decide`. -/
instance {e a : Type} [DecidableEq e] [DecidableEq a] : DecidableEq (Except e a)
  | Except.ok x, Except.ok y =>
      if h : x = y then Decidable.isTrue (congrArg Except.ok h)
      else Decidable.isFalse (fun he => h (Except.ok.inj he))
  | Except.error x, Except.error y =>
      if h : x = y then Decidable.isTrue (congrArg Except.error h)
      else Decidable.isFalse (fun he => h (Except.error.inj he))
  | Except.ok _, Except.error _ => Decidable.isFalse (fun he => Except.noConfusion he)
  | Except.error _, Except.ok _ => Decidable.isFalse (fun he => Except.noConfusion he)

/-! Helper lemmas about the embedded Python bitwise operations. -/

/-- Bitwise and with `0xFF` always lands in the byte range, on any integer. -/
theorem land_255_byte (x : ℤ) : 0 ≤ pyAnd x 255 ∧ pyAnd x 255 ≤ 255 := by
  cases x with
  | ofNat m =>
    show 0 ≤ (Int.ofNat (m &&& 255)) ∧ (Int.ofNat (m &&& 255)) ≤ Int.ofNat 255
    exact ⟨Int.ofNat_le.mpr (Nat.zero_le _), Int.ofNat_le.mpr Nat.and_le_right⟩
  | negSucc m =>
    show 0 ≤ (Int.ofNat (255 ^^^ (255 &&& m))) ∧
      (Int.ofNat (255 ^^^ (255 &&& m))) ≤ Int.ofNat 255
    refine ⟨Int.ofNat_le.mpr (Nat.zero_le _), Int.ofNat_le.mpr ?_⟩
    have h : 255 ^^^ (255 &&& m) < 2 ^ 8 :=
      Nat.xor_lt_two_pow (by norm_num) (Nat.lt_of_le_of_lt Nat.and_le_left (by norm_num))
    have h8 : (2 : ℕ) ^ 8 = 256 := by norm_num
    omega

/-- C1. The signed-byte codec of the source is not reversible: encoding `-1`
gives `1`, which decodes back to `1 ≠ -1`; and decoding byte `255` gives
`-254`, which re-encodes to `254 ≠ 255`. -/
theorem codec_roundtrip_fails :
    get_binary_from_int8 (-1) = 1 ∧
    get_int8_from_binary (get_binary_from_int8 (-1)) = 1 ∧ ((1 : ℤ) ≠ -1) ∧
    get_int8_from_binary 255 = -254 ∧
    get_binary_from_int8 (get_int8_from_binary 255) = 254 ∧ ((254 : ℤ) ≠ 255) := by
  decide

/-- C2. The signed decode is not the correct two's-complement decode: on byte
`128` the source returns `-127`, while `128 - 256 = -128`. -/
theorem decode_wrong_above_127 :
    get_int8_from_binary 128 = -127 ∧ (128 : ℤ) - 256 = -128 ∧
    ((-127 : ℤ) ≠ 128 - 256) ∧
    get_int8_from_binary 129 = -128 ∧ ((129 : ℤ) - 256 = -127) := by
  decide

/-- C9. The signed encode follows the spec's formula literally: a value
`>= 0` is returned unchanged, and a negative value is mapped to
`((value XOR 0xFF) + 1) AND 0xFF` (Python semantics of `^` and `&` on
arbitrary-precision two's-complement integers). -/
theorem encode_matches_spec_formula (v : ℤ) :
    (0 ≤ v → get_binary_from_int8 v = v) ∧
    (v < 0 → get_binary_from_int8 v = pyAnd (pyXor v 0xFF + 1) 0xFF) := by
  constructor
  · intro h
    simp [get_binary_from_int8, h]
  · intro h
    rw [get_binary_from_int8, if_neg (by omega)]

/-- Witness for C9 at `v = 7` and `v = -1`. -/
theorem encode_matches_spec_formula_witness :
    get_binary_from_int8 7 = 7 ∧
    get_binary_from_int8 (-1) = pyAnd (pyXor (-1) 0xFF + 1) 0xFF :=
  ⟨(encode_matches_spec_formula 7).1 (by decide),
   (encode_matches_spec_formula (-1)).2 (by decide)⟩

/-- Identity on set bits: `Nat.ldiff m n = m ^^^ (m &&& n)`. -/
theorem natLdiff_eq_xor_and (m n : ℕ) : Nat.ldiff m n = m ^^^ (m &&& n) := by
  apply Nat.eq_of_testBit_eq
  intro i
  rw [Nat.testBit_ldiff, Nat.testBit_xor, Nat.testBit_land]
  cases m.testBit i <;> cases n.testBit i <;> rfl

/-- Validation of the embedding: `pyAnd` agrees with Mathlib's `Int.land`. -/
theorem pyAnd_eq_land (x y : ℤ) : pyAnd x y = Int.land x y := by
  cases x <;> cases y <;> simp [pyAnd, Int.land, natLdiff_eq_xor_and]

/-- Validation of the embedding: `pyOr` agrees with Mathlib's `Int.lor`. -/
theorem pyOr_eq_lor (x y : ℤ) : pyOr x y = Int.lor x y := by
  cases x <;> cases y <;> simp [pyOr, Int.lor, natLdiff_eq_xor_and]

/-- Validation of the embedding: `pyXor` agrees with Mathlib's `Int.xor`. -/
theorem pyXor_eq_xor (x y : ℤ) : pyXor x y = Int.xor x y := by
  cases x <;> cases y <;> simp [pyXor, Int.xor]

/-- C10. For every `v` in `[-128,127]` the encoder's output is in `[0,255]`,
and `set_motor_speed` with valid arguments writes exactly that single
byte-ranged value to `motor_registers[motor-1]+8`. -/
theorem encode_output_is_byte :
    (∀ v : ℤ, -128 ≤ v → v ≤ 127 →
      0 ≤ get_binary_from_int8 v ∧ get_binary_from_int8 v ≤ 255) ∧
    (∀ (c : Controller) (s : BusState) (motor speed : ℤ),
      1 ≤ motor → motor ≤ 4 → -100 ≤ speed → speed ≤ 100 →
      Controller.set_motor_speed c motor speed (s, []) =
        (Except.ok (),
         busUpdate s (Controller.motor_registers.getD (motor - 1).toNat 0 + 8)
           (get_binary_from_int8 speed),
         [BusOp.writeByte c.addr (Controller.motor_registers.getD (motor - 1).toNat 0 + 8)
           (get_binary_from_int8 speed)]) ∧
      0 ≤ get_binary_from_int8 speed ∧ get_binary_from_int8 speed ≤ 255) := by
  have hrange : ∀ v : ℤ, -128 ≤ v → v ≤ 127 →
      0 ≤ get_binary_from_int8 v ∧ get_binary_from_int8 v ≤ 255 := by
    intro v h1 h2
    by_cases h : v ≥ 0
    · rw [get_binary_from_int8, if_pos h]
      exact ⟨h, by omega⟩
    · rw [get_binary_from_int8, if_neg h]
      exact land_255_byte _
  refine ⟨hrange, ?_⟩
  intro c s motor speed h1 h2 h3 h4
  rw [Controller.set_motor_speed, if_neg (by omega)]
  exact ⟨rfl, hrange speed (by omega) (by omega)⟩

/-- Witness for C10: `v = -100` and a concrete `set_motor_speed` call. -/
theorem encode_output_is_byte_witness :
    (0 ≤ get_binary_from_int8 (-100) ∧ get_binary_from_int8 (-100) ≤ 255) ∧
    (Controller.set_motor_speed ⟨0x08, ⟨1, 0⟩⟩ 2 (-100) (⟨fun _ => 0⟩, []) =
      (Except.ok (),
       busUpdate ⟨fun _ => 0⟩ (Controller.motor_registers.getD ((2 : ℤ) - 1).toNat 0 + 8)
         (get_binary_from_int8 (-100)),
       [BusOp.writeByte 0x08 (Controller.motor_registers.getD ((2 : ℤ) - 1).toNat 0 + 8)
         (get_binary_from_int8 (-100))]) ∧
     0 ≤ get_binary_from_int8 (-100) ∧ get_binary_from_int8 (-100) ≤ 255) :=
  ⟨encode_output_is_byte.1 (-100) (by decide) (by decide),
   encode_output_is_byte.2 ⟨0x08, ⟨1, 0⟩⟩ ⟨fun _ => 0⟩ 2 (-100)
     (by decide) (by decide) (by decide) (by decide)⟩

/-- C4, counterexample. The constructor does not borrow a caller-owned bus
object: even when the caller already holds the handle `(SMBus.new 1 0).1` to
bus number 1 and constructs `Controller(1, 0x08)`, the controller's `bus`
field is a freshly allocated handle, not the caller's. -/
theorem init_constructs_new_bus :
    ((Controller.init 1 0x08 (SMBus.new 1 0).2).1).bus ≠ (SMBus.new 1 0).1 ∧
    ((Controller.init 1 0x08 (SMBus.new 1 0).2).1).bus = ⟨1, 1⟩ := by
  decide

/-- C4, amended. `Controller(bus, addr)` takes an integer bus number, stores
`addr`, and stores in `self.bus` a brand-new `smbus.SMBus(bus)` handle whose
allocation is fresh — distinct from every handle allocated before the call. -/
theorem init_bus_is_fresh (bus addr ctr : ℕ) (h : SMBus) (hh : h.allocId < ctr) :
    (Controller.init bus addr ctr).1.addr = addr ∧
    (Controller.init bus addr ctr).1.bus = SMBus.mk bus ctr ∧
    (Controller.init bus addr ctr).1.bus ≠ h ∧
    (Controller.init bus addr ctr).2 = ctr + 1 := by
  refine ⟨rfl, rfl, ?_, rfl⟩
  intro he
  have hc : ctr = h.allocId := congrArg SMBus.allocId he
  omega

/-- Witness for C4's amended theorem at concrete arguments. -/
theorem init_bus_is_fresh_witness :
    (Controller.init 1 0x08 5).1.addr = 0x08 ∧
    (Controller.init 1 0x08 5).1.bus = SMBus.mk 1 5 ∧
    (Controller.init 1 0x08 5).1.bus ≠ ⟨1, 0⟩ ∧
    (Controller.init 1 0x08 5).2 = 6 :=
  init_bus_is_fresh 1 0x08 5 ⟨1, 0⟩ (by decide)

/-- C8. On a bus whose speed register for motor 1 (address `0x4E + 5 = 0x53`)
holds byte `128`, `get_motor_status(1)` returns speed `-127`, whereas the
correct two's-complement decode of `128` is `128 - 256 = -128`; the other
fields and the register trace are as specified. -/
theorem get_motor_status_speed_decode_bug :
    (Controller.get_motor_status ⟨0x08, ⟨1, 0⟩⟩ 1
        (⟨fun r => if r = 0x53 then 128 else 0⟩, [])).1 =
      Except.ok ([0, 0, 0, 0], [0, 128, 0, 0], -127, false, false, false, 0) ∧
    (Controller.get_motor_status ⟨0x08, ⟨1, 0⟩⟩ 1
        (⟨fun r => if r = 0x53 then 128 else 0⟩, [])).2.2 =
      [BusOp.readBlock 0x08 0x4E 4, BusOp.readBlock 0x08 0x52 4,
       BusOp.readByte 0x08 0x53, BusOp.readByte 0x08 0x57] ∧
    ((-127 : ℤ) ≠ 128 - 256) := by
  decide

/-- C3, counterexample. `set_servos` performs a bus read of the bitmask at
0x45 before validating its argument: with the invalid 3-element list the
call fails, yet the I/O trace contains a read. -/
theorem set_servos_reads_bus_before_validation :
    (Controller.set_servos ⟨0x08, ⟨1, 0⟩⟩ [1, 1, 0] (⟨fun _ => 0⟩, [])).1 =
      Except.error "The length of the list should be exactly 4." ∧
    (Controller.set_servos ⟨0x08, ⟨1, 0⟩⟩ [1, 1, 0] (⟨fun _ => 0⟩, [])).2.2 =
      [BusOp.readByte 0x08 0x45] ∧
    [BusOp.readByte 0x08 0x45] ≠ ([] : List BusOp) := by
  decide

/-- C6. `set_timeout` rejects any `seconds` outside `[-1,255]` with an
argument error and no bus I/O; for `seconds >= 0` it writes the value to
register 0x42 and returns the re-read register; for `seconds = -1` it
performs no write and returns the pre-existing register value. -/
theorem set_timeout_spec :
    (∀ (c : Controller) (s : BusState) (seconds : ℤ), seconds < -1 ∨ 255 < seconds →
      Controller.set_timeout c seconds (s, []) =
        (Except.error "The timeout should be in the range of [-1, 255].", s, [])) ∧
    (∀ (c : Controller) (s : BusState) (seconds : ℤ), 0 ≤ seconds → seconds ≤ 255 →
      Controller.set_timeout c seconds (s, []) =
        (Except.ok ((busUpdate s 0x42 seconds).regs 0x42), busUpdate s 0x42 seconds,
         [BusOp.writeByte c.addr 0x42 seconds, BusOp.readByte c.addr 0x42]) ∧
      (busUpdate s 0x42 seconds).regs 0x42 = seconds) ∧
    (∀ (c : Controller) (s : BusState),
      Controller.set_timeout c (-1) (s, []) =
        (Except.ok (s.regs 0x42), s, [BusOp.readByte c.addr 0x42])) := by
  refine ⟨?_, ?_, ?_⟩
  · intro c s seconds h
    rw [Controller.set_timeout, if_pos (by omega)]
  · intro c s seconds h1 h2
    constructor
    · simp only [Controller.set_timeout,
        if_neg (show ¬¬(-1 ≤ seconds ∧ seconds ≤ 255) by omega),
        if_pos (show seconds > -1 by omega), write_byte_data, read_byte_data]
      simp
    · simp [busUpdate]
  · intro c s
    simp only [Controller.set_timeout,
      if_neg (show ¬¬((-1 : ℤ) ≤ -1 ∧ (-1 : ℤ) ≤ 255) by omega),
      if_neg (show ¬((-1 : ℤ) > -1) by omega), read_byte_data, List.nil_append]

/-- Witness for C6: rejection of 256, a write of 20, and the `-1` query. -/
theorem set_timeout_spec_witness :
    (Controller.set_timeout ⟨0x08, ⟨1, 0⟩⟩ 256 (⟨fun _ => 7⟩, []) =
      (Except.error "The timeout should be in the range of [-1, 255].",
       (⟨fun _ => 7⟩ : BusState), [])) ∧
    (Controller.set_timeout ⟨0x08, ⟨1, 0⟩⟩ 20 (⟨fun _ => 7⟩, []) =
      (Except.ok ((busUpdate ⟨fun _ => 7⟩ 0x42 20).regs 0x42), busUpdate ⟨fun _ => 7⟩ 0x42 20,
       [BusOp.writeByte 0x08 0x42 20, BusOp.readByte 0x08 0x42]) ∧
     (busUpdate (⟨fun _ => 7⟩ : BusState) 0x42 20).regs 0x42 = 20) ∧
    (Controller.set_timeout ⟨0x08, ⟨1, 0⟩⟩ (-1) (⟨fun _ => 7⟩, []) =
      (Except.ok ((⟨fun _ => 7⟩ : BusState).regs 0x42), (⟨fun _ => 7⟩ : BusState),
       [BusOp.readByte 0x08 0x42])) :=
  ⟨set_timeout_spec.1 ⟨0x08, ⟨1, 0⟩⟩ ⟨fun _ => 7⟩ 256 (by omega),
   set_timeout_spec.2.1 ⟨0x08, ⟨1, 0⟩⟩ ⟨fun _ => 7⟩ 20 (by omega) (by omega),
   set_timeout_spec.2.2 ⟨0x08, ⟨1, 0⟩⟩ ⟨fun _ => 7⟩⟩

/-- C7. With channel in `[1,4]` and mode in `[0,3]`, `set_motor_mode` writes
the single byte `(invert<<4)|(pending<<3)|(reset<<2)|mode` to
`motor_registers[channel-1]+9` and returns nothing (the source's `+` packing
coincides with the claim's `|` packing since the fields occupy disjoint
bits); outside those ranges it raises an argument error with no bus I/O.
Concretely, `set_motor_mode(1, True, False, True, 3)` writes `0x17`. -/
theorem set_motor_mode_spec :
    (∀ (c : Controller) (s : BusState) (motor mode : ℤ) (invert pending reset : Bool),
      1 ≤ motor → motor ≤ 4 → 0 ≤ mode → mode ≤ 3 →
      Controller.set_motor_mode c motor invert pending reset mode (s, []) =
        (Except.ok (),
         busUpdate s (Controller.motor_registers.getD (motor - 1).toNat 0 + 9)
           (pyOr (pyOr (pyOr (((if invert then 1 else 0) <<< 4 : ℕ) : ℤ)
             (((if pending then 1 else 0) <<< 3 : ℕ) : ℤ))
             (((if reset then 1 else 0) <<< 2 : ℕ) : ℤ)) mode),
         [BusOp.writeByte c.addr (Controller.motor_registers.getD (motor - 1).toNat 0 + 9)
           (pyOr (pyOr (pyOr (((if invert then 1 else 0) <<< 4 : ℕ) : ℤ)
             (((if pending then 1 else 0) <<< 3 : ℕ) : ℤ))
             (((if reset then 1 else 0) <<< 2 : ℕ) : ℤ)) mode)])) ∧
    (∀ (c : Controller) (s : BusState) (motor mode : ℤ) (invert pending reset : Bool),
      motor < 1 ∨ 4 < motor ∨ mode < 0 ∨ 3 < mode →
      Controller.set_motor_mode c motor invert pending reset mode (s, []) =
        (Except.error "Got inappropriate value while setting mode for motor.", s, [])) ∧
    (∀ (c : Controller) (s : BusState),
      Controller.set_motor_mode c 1 true false true 3 (s, []) =
        (Except.ok (), busUpdate s (0x4E + 9) 0x17,
         [BusOp.writeByte c.addr (0x4E + 9) 0x17])) := by
  refine ⟨?_, ?_, ?_⟩
  · intro c s motor mode invert pending reset h1 h2 h3 h4
    have hv : (((if invert then 1 else 0) <<< 4 : ℕ) : ℤ) +
        (((if pending then 1 else 0) <<< 3 : ℕ) : ℤ) +
        (((if reset then 1 else 0) <<< 2 : ℕ) : ℤ) + mode =
        pyOr (pyOr (pyOr (((if invert then 1 else 0) <<< 4 : ℕ) : ℤ)
          (((if pending then 1 else 0) <<< 3 : ℕ) : ℤ))
          (((if reset then 1 else 0) <<< 2 : ℕ) : ℤ)) mode := by
      cases invert <;> cases pending <;> cases reset <;> interval_cases mode <;> decide
    simp only [Controller.set_motor_mode,
      if_neg (show ¬(¬(1 ≤ motor ∧ motor ≤ 4) ∨ ¬(0 ≤ mode ∧ mode ≤ 3)) by omega),
      write_byte_data, List.nil_append, hv]
  · intro c s motor mode invert pending reset h
    rw [Controller.set_motor_mode, if_pos (by omega)]
  · intro c s
    rfl

/-- Witness for C7 at concrete arguments, including the `0x17` example. -/
theorem set_motor_mode_spec_witness :
    (Controller.set_motor_mode ⟨0x08, ⟨1, 0⟩⟩ 1 true false true 3 (⟨fun _ => 0⟩, []) =
      (Except.ok (),
       busUpdate ⟨fun _ => 0⟩ (Controller.motor_registers.getD ((1 : ℤ) - 1).toNat 0 + 9)
         (pyOr (pyOr (pyOr (((if true then 1 else 0) <<< 4 : ℕ) : ℤ)
           (((if false then 1 else 0) <<< 3 : ℕ) : ℤ))
           (((if true then 1 else 0) <<< 2 : ℕ) : ℤ)) 3),
       [BusOp.writeByte 0x08 (Controller.motor_registers.getD ((1 : ℤ) - 1).toNat 0 + 9)
         (pyOr (pyOr (pyOr (((if true then 1 else 0) <<< 4 : ℕ) : ℤ)
           (((if false then 1 else 0) <<< 3 : ℕ) : ℤ))
           (((if true then 1 else 0) <<< 2 : ℕ) : ℤ)) 3)])) ∧
    (Controller.set_motor_mode ⟨0x08, ⟨1, 0⟩⟩ 5 true false true 3 (⟨fun _ => 0⟩, []) =
      (Except.error "Got inappropriate value while setting mode for motor.",
       (⟨fun _ => 0⟩ : BusState), [])) :=
  ⟨set_motor_mode_spec.1 ⟨0x08, ⟨1, 0⟩⟩ ⟨fun _ => 0⟩ 1 3 true false true
     (by omega) (by omega) (by omega) (by omega),
   set_motor_mode_spec.2.1 ⟨0x08, ⟨1, 0⟩⟩ ⟨fun _ => 0⟩ 5 3 true false true
     (by omega)⟩

/-- Computation rule for `Except.bind` on a success value. -/
theorem exceptOkBind {e a b : Type} (x : a) (f : a → Except e b) :
    (Except.ok x).bind f = f x := rfl

/-- Computation rule for `Except.bind` on an error value. -/
theorem exceptErrorBind {e a b : Type} (er : e) (f : a → Except e b) :
    (Except.error er : Except e a).bind f = Except.error er := rfl

/-- With an element outside `[-1,1]`, the `set_servos` loop body raises. -/
theorem servoStep_error {x : ℤ} (hx : ¬(-1 ≤ x ∧ x ≤ 1)) (i : ℕ) (v : ℤ) :
    Controller.servoStep i x v =
      Except.error ("Element " ++ toString i ++ " has a inappropriate value.") := by
  rw [Controller.servoStep, if_pos hx]

/-- With an element inside `[-1,1]`, the `set_servos` loop body succeeds. -/
theorem servoStep_ok_exists {x : ℤ} (hx : -1 ≤ x ∧ x ≤ 1) (i : ℕ) (v : ℤ) :
    ∃ w, Controller.servoStep i x v = Except.ok w := by
  rw [Controller.servoStep, if_neg (not_not_intro hx)]
  by_cases h1 : x = -1
  · rw [if_pos h1]; exact ⟨v, rfl⟩
  · rw [if_neg h1]
    by_cases h2 : x = 0
    · rw [if_pos h2]; exact ⟨_, rfl⟩
    · rw [if_neg h2]; exact ⟨_, rfl⟩

/-- Unfolding of the `range(4)` loop into its four iterations. -/
theorem servosLoop_eq (a b c d v : ℤ) :
    Controller.servosLoop [a, b, c, d] v =
      ((((Except.ok v).bind (Controller.servoStep 0 a)).bind
        (Controller.servoStep 1 b)).bind
        (Controller.servoStep 2 c)).bind (Controller.servoStep 3 d) := rfl

/-- If some entry of the 4-element list is invalid, the loop raises. -/
theorem servosLoop_error (a b c d v : ℤ)
    (h : ¬(-1 ≤ a ∧ a ≤ 1) ∨ ¬(-1 ≤ b ∧ b ≤ 1) ∨
         ¬(-1 ≤ c ∧ c ≤ 1) ∨ ¬(-1 ≤ d ∧ d ≤ 1)) :
    ∃ e, Controller.servosLoop [a, b, c, d] v = Except.error e := by
  rw [servosLoop_eq, exceptOkBind]
  by_cases ha : -1 ≤ a ∧ a ≤ 1
  · obtain ⟨v1, h1⟩ := servoStep_ok_exists ha 0 v
    rw [h1, exceptOkBind]
    by_cases hb : -1 ≤ b ∧ b ≤ 1
    · obtain ⟨v2, h2⟩ := servoStep_ok_exists hb 1 v1
      rw [h2, exceptOkBind]
      by_cases hc : -1 ≤ c ∧ c ≤ 1
      · obtain ⟨v3, h3⟩ := servoStep_ok_exists hc 2 v2
        rw [h3, exceptOkBind]
        have hd : ¬(-1 ≤ d ∧ d ≤ 1) := by tauto
        rw [servoStep_error hd]
        exact ⟨_, rfl⟩
      · rw [servoStep_error hc, exceptErrorBind]
        exact ⟨_, rfl⟩
    · rw [servoStep_error hb, exceptErrorBind, exceptErrorBind]
      exact ⟨_, rfl⟩
  · rw [servoStep_error ha, exceptErrorBind, exceptErrorBind, exceptErrorBind]
    exact ⟨_, rfl⟩

/-- Invalid `set_servos` arguments fail after exactly one bus read (of the
bitmask at 0x45) and before any write; the state is untouched. -/
theorem set_servos_invalid (c : Controller) (s : BusState) (servos : List ℤ)
    (h : servos.length ≠ 4 ∨ ∃ x ∈ servos, ¬(-1 ≤ x ∧ x ≤ 1)) :
    ∃ e, Controller.set_servos c servos (s, []) =
      (Except.error e, s, [BusOp.readByte c.addr 0x45]) := by
  by_cases hlen : servos.length = 4
  · rcases h with h | h
    · exact absurd hlen h
    · rcases servos with _ | ⟨a, t⟩
      · simp at hlen
      rcases t with _ | ⟨b, t⟩
      · simp at hlen
      rcases t with _ | ⟨cc, t⟩
      · simp at hlen
      rcases t with _ | ⟨d, t⟩
      · simp at hlen
      rcases t with _ | ⟨x, t⟩
      swap
      · simp [List.length] at hlen
      obtain ⟨x, hx, hinv⟩ := h
      have hdis : ¬(-1 ≤ a ∧ a ≤ 1) ∨ ¬(-1 ≤ b ∧ b ≤ 1) ∨
          ¬(-1 ≤ cc ∧ cc ≤ 1) ∨ ¬(-1 ≤ d ∧ d ≤ 1) := by
        simp only [List.mem_cons, List.not_mem_nil, or_false] at hx
        rcases hx with rfl | rfl | rfl | rfl <;> tauto
      obtain ⟨e, he⟩ := servosLoop_error a b cc d (s.regs 0x45) hdis
      refine ⟨e, ?_⟩
      simp only [Controller.set_servos, read_byte_data, List.nil_append]
      rw [if_neg (by simp)]
      rw [he]
  · refine ⟨"The length of the list should be exactly 4.", ?_⟩
    simp only [Controller.set_servos, read_byte_data, List.nil_append]
    rw [if_pos hlen]

/-- C3, amended. Every operation except `set_servos` validates its arguments
before any bus I/O: on out-of-range arguments it raises the argument error
with an untouched state and an empty trace.  `set_servos` instead reads the
bitmask at 0x45 before validating, so on a wrong-length list or an
out-of-range element it raises after exactly that one read and performs no
write. -/
theorem invalid_args_bus_io :
    (∀ (c : Controller) (s : BusState) (seconds : ℤ), seconds < -1 ∨ 255 < seconds →
      Controller.set_timeout c seconds (s, []) =
        (Except.error "The timeout should be in the range of [-1, 255].", s, [])) ∧
    (∀ (c : Controller) (s : BusState) (servo speed : ℤ),
      servo < 1 ∨ 4 < servo ∨ speed < -1 ∨ 255 < speed →
      Controller.set_servo_speed c servo speed (s, []) =
        (Except.error "Inappropriate value for servo speed.", s, [])) ∧
    (∀ (c : Controller) (s : BusState) (servo target : ℤ),
      servo < 1 ∨ 4 < servo ∨ target < -1 ∨ 250 < target →
      Controller.set_servo_target c servo target (s, []) =
        (Except.error "Inappropriate value for servo target.", s, [])) ∧
    (∀ (c : Controller) (s : BusState) (motor : ℤ), motor < 1 ∨ 4 < motor →
      Controller.get_motor_status c motor (s, []) =
        (Except.error "Inappropriate value for motor channel", s, [])) ∧
    (∀ (c : Controller) (s : BusState) (motor mode : ℤ) (invert pending reset : Bool),
      motor < 1 ∨ 4 < motor ∨ mode < 0 ∨ 3 < mode →
      Controller.set_motor_mode c motor invert pending reset mode (s, []) =
        (Except.error "Got inappropriate value while setting mode for motor.", s, [])) ∧
    (∀ (c : Controller) (s : BusState) (motor speed : ℤ),
      motor < 1 ∨ 4 < motor ∨ speed < -100 ∨ 100 < speed →
      Controller.set_motor_speed c motor speed (s, []) =
        (Except.error "Got inappropriate value while setting motor speed.", s, [])) ∧
    (∀ (c : Controller) (s : BusState) (servos : List ℤ),
      servos.length ≠ 4 ∨ (∃ x ∈ servos, ¬(-1 ≤ x ∧ x ≤ 1)) →
      ∃ e, Controller.set_servos c servos (s, []) =
        (Except.error e, s, [BusOp.readByte c.addr 0x45])) := by
  refine ⟨?_, ?_, ?_, ?_, ?_, ?_, ?_⟩
  · intro c s seconds h
    rw [Controller.set_timeout, if_pos (by omega)]
  · intro c s servo speed h
    rw [Controller.set_servo_speed, if_pos (by omega)]
  · intro c s servo target h
    rw [Controller.set_servo_target, if_pos (by omega)]
  · intro c s motor h
    rw [Controller.get_motor_status, if_pos (by omega)]
  · intro c s motor mode invert pending reset h
    rw [Controller.set_motor_mode, if_pos (by omega)]
  · intro c s motor speed h
    rw [Controller.set_motor_speed, if_pos (by omega)]
  · intro c s servos h
    exact set_servos_invalid c s servos h

/-- Witness for C3's amended theorem at concrete invalid calls. -/
theorem invalid_args_bus_io_witness :
    (Controller.set_timeout ⟨0x08, ⟨1, 0⟩⟩ 256 (⟨fun _ => 0⟩, []) =
      (Except.error "The timeout should be in the range of [-1, 255].",
       (⟨fun _ => 0⟩ : BusState), [])) ∧
    (Controller.set_servo_speed ⟨0x08, ⟨1, 0⟩⟩ 5 10 (⟨fun _ => 0⟩, []) =
      (Except.error "Inappropriate value for servo speed.",
       (⟨fun _ => 0⟩ : BusState), [])) ∧
    (Controller.set_servo_target ⟨0x08, ⟨1, 0⟩⟩ 1 251 (⟨fun _ => 0⟩, []) =
      (Except.error "Inappropriate value for servo target.",
       (⟨fun _ => 0⟩ : BusState), [])) ∧
    (Controller.get_motor_status ⟨0x08, ⟨1, 0⟩⟩ 0 (⟨fun _ => 0⟩, []) =
      (Except.error "Inappropriate value for motor channel",
       (⟨fun _ => 0⟩ : BusState), [])) ∧
    (Controller.set_motor_mode ⟨0x08, ⟨1, 0⟩⟩ 1 true true true 4 (⟨fun _ => 0⟩, []) =
      (Except.error "Got inappropriate value while setting mode for motor.",
       (⟨fun _ => 0⟩ : BusState), [])) ∧
    (Controller.set_motor_speed ⟨0x08, ⟨1, 0⟩⟩ 1 101 (⟨fun _ => 0⟩, []) =
      (Except.error "Got inappropriate value while setting motor speed.",
       (⟨fun _ => 0⟩ : BusState), [])) ∧
    (∃ e, Controller.set_servos ⟨0x08, ⟨1, 0⟩⟩ [1, 1, 2, 0] (⟨fun _ => 0⟩, []) =
      (Except.error e, (⟨fun _ => 0⟩ : BusState), [BusOp.readByte 0x08 0x45])) :=
  ⟨invalid_args_bus_io.1 ⟨0x08, ⟨1, 0⟩⟩ ⟨fun _ => 0⟩ 256 (by omega),
   invalid_args_bus_io.2.1 ⟨0x08, ⟨1, 0⟩⟩ ⟨fun _ => 0⟩ 5 10 (by omega),
   invalid_args_bus_io.2.2.1 ⟨0x08, ⟨1, 0⟩⟩ ⟨fun _ => 0⟩ 1 251 (by omega),
   invalid_args_bus_io.2.2.2.1 ⟨0x08, ⟨1, 0⟩⟩ ⟨fun _ => 0⟩ 0 (by omega),
   invalid_args_bus_io.2.2.2.2.1 ⟨0x08, ⟨1, 0⟩⟩ ⟨fun _ => 0⟩ 1 4 true true true (by omega),
   invalid_args_bus_io.2.2.2.2.2.1 ⟨0x08, ⟨1, 0⟩⟩ ⟨fun _ => 0⟩ 1 101 (by omega),
   invalid_args_bus_io.2.2.2.2.2.2 ⟨0x08, ⟨1, 0⟩⟩ ⟨fun _ => 0⟩ [1, 1, 2, 0]
     (Or.inr ⟨2, by simp, by omega⟩)⟩

/-- Conversion: `Int.testBit` on a natural-number cast is `Nat.testBit`. -/
theorem intTestBit_ofNat (n i : ℕ) : Int.testBit ((n : ℕ) : ℤ) i = Nat.testBit n i := rfl

/-- The clear-mask `(1 << i) ^ 0xFF` used by `set_servos` has, below bit 8,
exactly the bits other than `i` set. -/
theorem clearMask_testBit (i : ℕ) (hi : i < 8) (j : ℕ) (hj : j < 8) :
    Nat.testBit ((1 <<< i) ^^^ 255) j = decide (j ≠ i) := by
  rw [Nat.testBit_xor, Nat.one_shiftLeft, Nat.testBit_two_pow]
  have h255 : Nat.testBit 255 j = true := by interval_cases j <;> decide
  rw [h255]
  by_cases hji : j = i
  · subst hji; simp
  · simp [hji, Ne.symm hji]

/-- One `set_servos` loop iteration with a valid element: it succeeds, leaves
every other low bit unchanged, and acts on bit `i` as commanded (`-1` keeps,
`0` clears, `1` sets). -/
theorem servoStep_testBit (i : ℕ) (hi : i < 8) (x v : ℤ) (hx : -1 ≤ x ∧ x ≤ 1) :
    ∃ w, Controller.servoStep i x v = Except.ok w ∧
      (∀ j, j < 8 → j ≠ i → Int.testBit w j = Int.testBit v j) ∧
      (x = -1 → w = v) ∧
      (x = 0 → Int.testBit w i = false) ∧
      (x = 1 → Int.testBit w i = true) := by
  have htri : x = -1 ∨ x = 0 ∨ x = 1 := by omega
  rcases htri with rfl | rfl | rfl
  · refine ⟨v, ?_, fun _ _ _ => rfl, fun _ => rfl,
      fun h => absurd h (by decide), fun h => absurd h (by decide)⟩
    rw [Controller.servoStep, if_neg (not_not_intro hx), if_pos rfl]
  · refine ⟨pyAnd v (((1 <<< i) ^^^ 0xFF : ℕ) : ℤ), ?_, ?_, fun h => absurd h (by decide),
      fun _ => ?_, fun h => absurd h (by decide)⟩
    · rw [Controller.servoStep, if_neg (not_not_intro hx), if_neg (by decide), if_pos rfl]
    · intro j hj hji
      rw [pyAnd_eq_land, Int.testBit_land, intTestBit_ofNat, clearMask_testBit i hi j hj]
      simp [hji]
    · rw [pyAnd_eq_land, Int.testBit_land, intTestBit_ofNat, clearMask_testBit i hi i hi]
      simp
  · refine ⟨pyOr v ((1 <<< i : ℕ) : ℤ), ?_, ?_, fun h => absurd h (by decide),
      fun h => absurd h (by decide), fun _ => ?_⟩
    · rw [Controller.servoStep, if_neg (not_not_intro hx), if_neg (by decide),
        if_neg (by decide)]
    · intro j hj hji
      rw [pyOr_eq_lor, Int.testBit_lor, intTestBit_ofNat, Nat.one_shiftLeft,
        Nat.testBit_two_pow]
      simp [Ne.symm hji]
    · rw [pyOr_eq_lor, Int.testBit_lor, intTestBit_ofNat, Nat.one_shiftLeft,
        Nat.testBit_two_pow]
      simp

/-- The full `set_servos` loop on a valid 4-element list: it succeeds and the
final bitmask relates bit-by-bit to the initial one as commanded. -/
theorem servosLoop_testBit (a b c d v : ℤ)
    (ha : -1 ≤ a ∧ a ≤ 1) (hb : -1 ≤ b ∧ b ≤ 1)
    (hc : -1 ≤ c ∧ c ≤ 1) (hd : -1 ≤ d ∧ d ≤ 1) :
    ∃ w, Controller.servosLoop [a, b, c, d] v = Except.ok w ∧
      ((a = -1 → Int.testBit w 0 = Int.testBit v 0) ∧
       (a = 0 → Int.testBit w 0 = false) ∧ (a = 1 → Int.testBit w 0 = true)) ∧
      ((b = -1 → Int.testBit w 1 = Int.testBit v 1) ∧
       (b = 0 → Int.testBit w 1 = false) ∧ (b = 1 → Int.testBit w 1 = true)) ∧
      ((c = -1 → Int.testBit w 2 = Int.testBit v 2) ∧
       (c = 0 → Int.testBit w 2 = false) ∧ (c = 1 → Int.testBit w 2 = true)) ∧
      ((d = -1 → Int.testBit w 3 = Int.testBit v 3) ∧
       (d = 0 → Int.testBit w 3 = false) ∧ (d = 1 → Int.testBit w 3 = true)) := by
  obtain ⟨w1, e1, p1, m1, z1, o1⟩ := servoStep_testBit 0 (by omega) a v ha
  obtain ⟨w2, e2, p2, m2, z2, o2⟩ := servoStep_testBit 1 (by omega) b w1 hb
  obtain ⟨w3, e3, p3, m3, z3, o3⟩ := servoStep_testBit 2 (by omega) c w2 hc
  obtain ⟨w4, e4, p4, m4, z4, o4⟩ := servoStep_testBit 3 (by omega) d w3 hd
  refine ⟨w4, ?_, ⟨?_, ?_, ?_⟩, ⟨?_, ?_, ?_⟩, ⟨?_, ?_, ?_⟩, ⟨?_, ?_, ?_⟩⟩
  · rw [servosLoop_eq, exceptOkBind, e1, exceptOkBind, e2, exceptOkBind, e3,
      exceptOkBind, e4]
  · intro h
    rw [p4 0 (by omega) (by omega), p3 0 (by omega) (by omega),
      p2 0 (by omega) (by omega), m1 h]
  · intro h
    rw [p4 0 (by omega) (by omega), p3 0 (by omega) (by omega),
      p2 0 (by omega) (by omega), z1 h]
  · intro h
    rw [p4 0 (by omega) (by omega), p3 0 (by omega) (by omega),
      p2 0 (by omega) (by omega), o1 h]
  · intro h
    rw [p4 1 (by omega) (by omega), p3 1 (by omega) (by omega), m2 h,
      p1 1 (by omega) (by omega)]
  · intro h
    rw [p4 1 (by omega) (by omega), p3 1 (by omega) (by omega), z2 h]
  · intro h
    rw [p4 1 (by omega) (by omega), p3 1 (by omega) (by omega), o2 h]
  · intro h
    rw [p4 2 (by omega) (by omega), m3 h, p2 2 (by omega) (by omega),
      p1 2 (by omega) (by omega)]
  · intro h
    rw [p4 2 (by omega) (by omega), z3 h]
  · intro h
    rw [p4 2 (by omega) (by omega), o3 h]
  · intro h
    rw [m4 h, p3 3 (by omega) (by omega), p2 3 (by omega) (by omega),
      p1 3 (by omega) (by omega)]
  · intro h
    rw [z4 h]
  · intro h
    rw [o4 h]

/-- C5. On a valid 4-element list, `set_servos` is a read-modify-write of the
servo-enable bitmask at 0x45: it reads the bitmask, produces a new bitmask
`newMask` in which each channel bit `i < 4` is kept for element `-1`, cleared
for `0` and set for `1`, writes `newMask` back, re-reads it, and returns the
four booleans `bit i of the re-read value > 0`.  Concretely,
`set_servos([1,1,0,-1])` from bitmask `0b0000` writes `0b0011` and returns
`[True, True, False, False]`. -/
theorem set_servos_rmw :
    (∀ (c : Controller) (s : BusState) (servos : List ℤ),
      servos.length = 4 → (∀ x ∈ servos, -1 ≤ x ∧ x ≤ 1) →
      ∃ newMask : ℤ,
        Controller.set_servos c servos (s, []) =
          (Except.ok ((List.range 4).map
             (fun index => decide (pyAnd newMask ((1 <<< index : ℕ) : ℤ) > 0))),
           busUpdate s 0x45 newMask,
           [BusOp.readByte c.addr 0x45, BusOp.writeByte c.addr 0x45 newMask,
            BusOp.readByte c.addr 0x45]) ∧
        (∀ i : ℕ, i < 4 →
          (servos.getD i 0 = -1 →
            Int.testBit newMask i = Int.testBit (s.regs 0x45) i) ∧
          (servos.getD i 0 = 0 → Int.testBit newMask i = false) ∧
          (servos.getD i 0 = 1 → Int.testBit newMask i = true))) ∧
    (∀ (c : Controller) (s : BusState), s.regs 0x45 = 0 →
      Controller.set_servos c [1, 1, 0, -1] (s, []) =
        (Except.ok [true, true, false, false], busUpdate s 0x45 3,
         [BusOp.readByte c.addr 0x45, BusOp.writeByte c.addr 0x45 3,
          BusOp.readByte c.addr 0x45])) := by
  constructor
  · intro c s servos hlen helem
    rcases servos with _ | ⟨a, t⟩
    · simp at hlen
    rcases t with _ | ⟨b, t⟩
    · simp at hlen
    rcases t with _ | ⟨cc, t⟩
    · simp at hlen
    rcases t with _ | ⟨d, t⟩
    · simp at hlen
    rcases t with _ | ⟨x, t⟩
    swap
    · simp [List.length] at hlen
    have ha := helem a (by simp)
    have hb := helem b (by simp)
    have hc := helem cc (by simp)
    have hd := helem d (by simp)
    obtain ⟨w, hw, r0, r1, r2, r3⟩ :=
      servosLoop_testBit a b cc d (s.regs 0x45) ha hb hc hd
    refine ⟨w, ?_, ?_⟩
    · simp only [Controller.set_servos, read_byte_data, List.nil_append]
      rw [if_neg (by simp)]
      rw [hw]
      simp only [write_byte_data, read_byte_data, busUpdate, List.nil_append,
        List.append_assoc, List.cons_append, List.singleton_append]
      simp
    · intro i hi
      interval_cases i
      · simpa using r0
      · simpa using r1
      · simpa using r2
      · simpa using r3
  · intro c s h0
    simp only [Controller.set_servos, read_byte_data, List.nil_append, h0]
    rw [if_neg (by simp)]
    have hloop : Controller.servosLoop [1, 1, 0, -1] 0 = Except.ok 3 := by decide
    rw [hloop]
    simp only [write_byte_data, read_byte_data, busUpdate, List.nil_append,
      List.append_assoc, List.cons_append, List.singleton_append]
    simp only [List.range_succ, List.range_zero, List.map_append, List.map_cons,
      List.map_nil, List.nil_append]
    norm_num
    decide

/-- Witness for C5: a general call on `[0, 1, -1, 1]` and the spec's concrete
`[1, 1, 0, -1]` example from bitmask 0. -/
theorem set_servos_rmw_witness :
    (∃ newMask : ℤ,
      Controller.set_servos ⟨0x08, ⟨1, 0⟩⟩ [0, 1, -1, 1] (⟨fun _ => 5⟩, []) =
        (Except.ok ((List.range 4).map
           (fun index => decide (pyAnd newMask ((1 <<< index : ℕ) : ℤ) > 0))),
         busUpdate ⟨fun _ => 5⟩ 0x45 newMask,
         [BusOp.readByte 0x08 0x45, BusOp.writeByte 0x08 0x45 newMask,
          BusOp.readByte 0x08 0x45]) ∧
      (∀ i : ℕ, i < 4 →
        (([0, 1, -1, 1] : List ℤ).getD i 0 = -1 →
          Int.testBit newMask i = Int.testBit ((⟨fun _ => 5⟩ : BusState).regs 0x45) i) ∧
        (([0, 1, -1, 1] : List ℤ).getD i 0 = 0 → Int.testBit newMask i = false) ∧
        (([0, 1, -1, 1] : List ℤ).getD i 0 = 1 → Int.testBit newMask i = true))) ∧
    (Controller.set_servos ⟨0x08, ⟨1, 0⟩⟩ [1, 1, 0, -1] (⟨fun _ => 0⟩, []) =
      (Except.ok [true, true, false, false], busUpdate ⟨fun _ => 0⟩ 0x45 3,
       [BusOp.readByte 0x08 0x45, BusOp.writeByte 0x08 0x45 3,
        BusOp.readByte 0x08 0x45])) :=
  ⟨set_servos_rmw.1 ⟨0x08, ⟨1, 0⟩⟩ ⟨fun _ => 5⟩ [0, 1, -1, 1] (by decide)
     (by decide),
   set_servos_rmw.2 ⟨0x08, ⟨1, 0⟩⟩ ⟨fun _ => 0⟩ rfl⟩
